import Mathlib

/-!
Verification development for the Agent Execution Controller of the
Data-ETL-Pipeline-Assistant repository.

The Lean definitions below are shallow embeddings of the Python source:

* `app/agent/guardrails.py` — read-only / keyword / statement / table /
  column / limit guardrails over generated SQL text;
* `app/agent/service.py` — the retry-repair controller (`_handle_sql`,
  `_handle_etl`), the ETL cache payload round trip, and the per-table
  DB-load conflict handling;
* `app/agent/repair_knowledge.py` — the persistent table → strategy store;
* `app/etl/db_loader.py` — the upsert load executors.

External collaborators (the LLM generator, the SQL execution backend, the
sqlglot parser, the Redis cache, the filesystem) are modelled as explicit
function parameters, exactly at the call boundaries the source uses.
Python strings are modelled as Lean `String`; all scanning is done over
`String.toList` with executable structural recursion.
-/

set_option maxRecDepth 4096

instance {ε α : Type} [DecidableEq ε] [DecidableEq α] : DecidableEq (Except ε α) := fun a b =>
  match a, b with
  | .ok x, .ok y =>
    if h : x = y then .isTrue (by rw [h]) else .isFalse (by intro he; cases he; exact h rfl)
  | .error x, .error y =>
    if h : x = y then .isTrue (by rw [h]) else .isFalse (by intro he; cases he; exact h rfl)
  | .ok _, .error _ => .isFalse (by intro he; cases he)
  | .error _, .ok _ => .isFalse (by intro he; cases he)

/-! ## Generic string helpers (Python `str` operations used by the source) -/

/-- ASCII whitespace, as matched by Python `\s` / `str.strip()` on ASCII input. -/
def charIsSpace (c : Char) : Bool :=
  c = ' ' || c = '\t' || c = '\n' || c = '\r' || c = '\x0b' || c = '\x0c'

/-- Python regex word character `\w` (ASCII): letters, digits, underscore. -/
def charIsWord (c : Char) : Bool :=
  c.isAlphanum || c = '_'

/-- Lowercase a character list (Python `str.lower()` on ASCII input). -/
def lowerChars (cs : List Char) : List Char := cs.map Char.toLower

/-- Strip every leading and trailing occurrence of `c` (Python `str.strip(c)`). -/
def stripCharBoth (c : Char) (cs : List Char) : List Char :=
  ((cs.dropWhile (· = c)).reverse.dropWhile (· = c)).reverse

/-- Python `str.strip()`: drop leading and trailing whitespace. -/
def pyStrip (cs : List Char) : List Char :=
  ((cs.dropWhile charIsSpace).reverse.dropWhile charIsSpace).reverse

/-- Python `str.rstrip()`: drop trailing whitespace. -/
def pyRstripWs (cs : List Char) : List Char :=
  (cs.reverse.dropWhile charIsSpace).reverse

/-- Python `str.rstrip(";")`: drop trailing semicolons. -/
def pyRstripSemis (cs : List Char) : List Char :=
  (cs.reverse.dropWhile (· = ';')).reverse

/-- Substring containment (Python `needle in haystack`). -/
def listIsInfix (needle : List Char) : List Char → Bool
  | [] => needle.isEmpty
  | c :: cs => needle.isPrefixOf (c :: cs) || listIsInfix needle cs

/-- Case-insensitive substring containment of `needle.lower()` in `hay.lower()`. -/
def containsLowered (needle hay : String) : Bool :=
  listIsInfix (lowerChars needle.toList) (lowerChars hay.toList)

/-- Code-point comparison of character lists (Python string ordering). -/
def listCharLe : List Char → List Char → Bool
  | [], _ => true
  | _ :: _, [] => false
  | a :: as, b :: bs =>
    if a.toNat < b.toNat then true
    else if b.toNat < a.toNat then false
    else listCharLe as bs

/-- Code-point string ordering (Python `<=` on `str`). -/
def strLe (a b : String) : Bool := listCharLe a.toList b.toList

/-- Insertion step of the sort used to model Python `sorted(...)`. -/
def insertSorted (s : String) : List String → List String
  | [] => [s]
  | t :: ts => if strLe s t then s :: t :: ts else t :: insertSorted s ts

/-- Stable insertion sort modelling Python `sorted(list_of_strings)`. -/
def sortStrings : List String → List String
  | [] => []
  | s :: ss => insertSorted s (sortStrings ss)

/-- Deduplicate keeping first occurrences (used to model Python `set` iteration
before sorting; order is irrelevant once sorted). -/
def dedupStringsAux : List String → List String → List String
  | acc, [] => acc.reverse
  | acc, s :: ss => if acc.contains s then dedupStringsAux acc ss else dedupStringsAux (s :: acc) ss

def dedupStrings (l : List String) : List String := dedupStringsAux [] l

/-- Python `sorted(set(l))`. -/
def sortedUnique (l : List String) : List String := sortStrings (dedupStrings l)

/-- Python `s.split(".")[-1]`: the part after the last dot (the whole string
when no dot occurs). -/
def takeAfterLastDot (cs : List Char) : List Char :=
  (cs.reverse.takeWhile (· ≠ '.')).reverse

/-! ## Guardrail Engine — `app/agent/guardrails.py`

`GuardrailViolation` exceptions are modelled with `Except String`, carrying the
exact message text raised by the source. -/

/-- `_READ_ONLY_PATTERN.match(query)`: the regex `^\s*(select|with)\b`
(case-insensitive). `keywordAt kw cs` checks that the lowercase keyword `kw`
occurs at the head of `cs` followed by a word boundary. -/
def keywordAt (kw : List Char) (cs : List Char) : Bool :=
  kw.isPrefixOf (lowerChars cs) &&
    (match cs.drop kw.length with
     | [] => true
     | c :: _ => !charIsWord c)

def readOnlyMatches (query : String) : Bool :=
  let rest := query.toList.dropWhile charIsSpace
  keywordAt "select".toList rest || keywordAt "with".toList rest

/-- `re.search` of `\b(kw1|kw2|...)\b` (case-insensitive): scan every position,
requiring a non-word character (or start of string) before the keyword and a
word boundary after it. -/
def scanKeywords (kws : List (List Char)) : Option Char → List Char → Bool
  | _, [] => false
  | prev, c :: cs =>
    ((match prev with
      | none => true
      | some p => !charIsWord p) && kws.any (fun kw => keywordAt kw (c :: cs)))
      || scanKeywords kws (some c) cs

/-- `_PROHIBITED_KEYWORDS`: the banned DML/DDL keyword alternation. -/
def prohibitedKeywordList : List (List Char) :=
  ["insert", "update", "delete", "drop", "alter", "create", "grant", "revoke",
   "truncate", "comment", "merge", "call", "exec"].map String.toList

def containsProhibitedKeyword (query : String) : Bool :=
  scanKeywords prohibitedKeywordList none query.toList

/-- `";" in query.strip().rstrip(";")`. -/
def hasInteriorSemicolon (query : String) : Bool :=
  (pyRstripSemis (pyStrip query.toList)).contains ';'

/-- `ensure_read_only(query)`: read-only shape, banned keyword scan, single
statement check, in source order (fail fast). -/
def ensureReadOnly (query : String) : Except String Unit :=
  if !readOnlyMatches query then
    .error "Only SELECT/CTE queries are permitted."
  else if containsProhibitedKeyword query then
    .error "Detected prohibited SQL keywords (DML/DDL)."
  else if hasInteriorSemicolon query then
    .error "Multiple SQL statements are not allowed."
  else
    .ok ()

/-- `_TABLE_COLUMN_MAP`: the fixed per-table column catalog. -/
def tableColumnMap : List (String × List String) :=
  [("patients",
    ["id", "birthdate", "deathdate", "ssn", "drivers", "passport", "prefix",
     "first", "last", "suffix", "maiden", "marital", "race", "ethnicity",
     "gender", "birthplace", "address"]),
   ("encounters",
    ["id", "date", "patient", "code", "description", "reasoncode",
     "reasondescription"]),
   ("conditions",
    ["start", "stop", "patient", "encounter", "code", "description"]),
   ("procedures",
    ["date", "patient", "encounter", "code", "description", "reasoncode",
     "reasondescription"]),
   ("medications",
    ["start", "stop", "patient", "encounter", "code", "description",
     "reasoncode", "reasondescription"]),
   ("observations",
    ["date", "patient", "encounter", "code", "description", "value", "units"])]

/-- `_ALLOWED_COLUMN_NAMES`: the union of every table's columns. -/
def allowedColumnNames : List String :=
  (tableColumnMap.map Prod.snd).flatten

/-- `_ALLOWED_TABLE_NAMES`. -/
def allowedTableNames : List String :=
  tableColumnMap.map Prod.fst

/-- The columns the catalog declares for one table (empty for unknown tables). -/
def columnsOfTable (table : String) : List String :=
  (tableColumnMap.lookup table).getD []

/-- Python `repr` of a string, as interpolated into the unknown-column message. -/
def pyStrRepr (s : String) : String := "\x27" ++ s ++ "\x27"

/-- Python `str(sorted(set_of_strings))`. -/
def pyListRepr (l : List String) : String :=
  "[" ++ String.intercalate ", " (l.map pyStrRepr) ++ "]"

/-- The message raised for an unknown column reference. -/
def unknownColumnMessage (normalized : String) : String :=
  "Unknown column \x27" ++ normalized ++ "\x27. Valid columns include: "
    ++ pyListRepr (sortedUnique allowedColumnNames)

/-- `name.strip('"').lower()`. -/
def normalizeName (s : String) : String :=
  String.mk (lowerChars (stripCharBoth '\"' s.toList))

/-- `_validate_column_reference(column, alias_names)`: star and empty names are
exempt; otherwise the normalized name must be an enclosing-SELECT alias or a
member of the global allowed-column union. -/
def validateColumnReference (isStar : Bool) (name : String) (aliasNames : List String) :
    Except String Unit :=
  if isStar then .ok ()
  else if name = "" then .ok ()
  else
    let normalized := normalizeName name
    if aliasNames.contains normalized then .ok ()
    else if !allowedColumnNames.contains normalized then
      .error (unknownColumnMessage normalized)
    else .ok ()

/-- One column reference extracted by sqlglot: star flag, textual name and the
aliases collected from the enclosing SELECT projection list. -/
structure ColumnRef where
  isStar : Bool
  name : String
  enclosingAliases : List String
deriving Repr, DecidableEq

/-- Abstraction of a successful `sqlglot.parse_one` result: the table names and
column references that `find_all` would yield. -/
structure ParsedSql where
  tables : List String
  columns : List ColumnRef
deriving Repr, DecidableEq

/-- Normalization applied to each table name:
`str(name).strip('"').lower()`, then the part after the last dot. -/
def normalizeTableName (name : String) : String :=
  let normalized := normalizeName name
  if normalized.toList.contains '.' then
    String.mk (takeAfterLastDot normalized.toList)
  else normalized

/-- `ensure_known_tables(query)`: parser failure skips the check; otherwise
unknown base tables fail with the offending names and the permitted list. -/
def ensureKnownTables (parse : String → Option ParsedSql) (query : String) :
    Except String Unit :=
  match parse query with
  | none => .ok ()
  | some tree =>
    let unknown := tree.tables.filter fun name =>
      name ≠ "" && !allowedTableNames.contains (normalizeTableName name)
    if unknown.isEmpty then .ok ()
    else
      .error ("Unknown table(s): " ++ String.intercalate ", " (sortStrings unknown)
        ++ ". Use only documented tables: "
        ++ String.intercalate ", " (sortStrings allowedTableNames) ++ ".")

def validateColumnRefs : List ColumnRef → Except String Unit
  | [] => .ok ()
  | c :: rest =>
    match validateColumnReference c.isStar c.name c.enclosingAliases with
    | .ok () => validateColumnRefs rest
    | .error e => .error e

/-- `ensure_known_columns(query)`: parser failure skips the check; otherwise
every column reference is validated in order. -/
def ensureKnownColumns (parse : String → Option ParsedSql) (query : String) :
    Except String Unit :=
  match parse query with
  | none => .ok ()
  | some tree => validateColumnRefs tree.columns

/-- `SqlValidationResult`. -/
structure SqlValidationResult where
  query : String
  enforced_limit : Bool
deriving Repr, DecidableEq

/-- `re.search(r"\blimit\b", query, re.IGNORECASE)`. -/
def containsLimitWord (query : String) : Bool :=
  scanKeywords ["limit".toList] none query.toList

/-- `enforce_limit(query, limit)`: append `LIMIT n` to the query (after
dropping trailing whitespace and semicolons) unless the word `limit` already
occurs. -/
def enforceLimit (query : String) (limit : Nat) : SqlValidationResult :=
  if containsLimitWord query then
    { query := query, enforced_limit := false }
  else
    { query := String.mk (pyRstripSemis (pyRstripWs query.toList))
        ++ "\nLIMIT " ++ toString limit,
      enforced_limit := true }

/-- `validate_sql(query, limit=limit)`: the full guardrail pipeline, with the
sqlglot parser passed explicitly as a collaborator. -/
def validateSql (parse : String → Option ParsedSql) (query : String) (limit : Nat) :
    Except String SqlValidationResult :=
  match ensureReadOnly query with
  | .error e => .error e
  | .ok () =>
    match ensureKnownTables parse query with
    | .error e => .error e
    | .ok () =>
      match ensureKnownColumns parse query with
      | .error e => .error e
      | .ok () => .ok (enforceLimit query limit)

/-- `ensure_required_literals(query, literals)`: every required literal must
occur (case-insensitively) in the generated SQL. -/
def ensureRequiredLiterals (query : String) (literals : List String) :
    Except String Unit :=
  let missing := literals.filter fun l => !containsLowered l query
  if missing.isEmpty then .ok ()
  else .error ("Generated SQL omitted required values: " ++ String.intercalate ", " missing)


/-! ## Result Validator — `app/agent/validator.py`

`validate_result` rejects empty row sets; `summarize_exception` turns the raw
exception into the short message appended to the error history.  The message
for a `ValidationError` is its own text, so the empty-result failure is folded
directly into the execution step below with the exact source message. -/

/-- One executed-query result as returned by `execute_query` (a collaborator
from the controller's point of view): the validated SQL, rows, columns and the
limit-injection flag. Row values are modelled as strings. -/
structure ExecResult where
  sql : String
  rows : List (List (String × String))
  columns : List String
  limitEnforced : Bool
deriving Repr, DecidableEq

/-- The prompt variants the SQL path can send to the generator: the plain
generation prompt of `build_sql_prompt`, or the repair prompt of
`build_sql_repair_prompt` carrying the previous SQL text and the latest
error summary. -/
inductive SqlPrompt
  | plain
  | repair (previousSql : String) (errorSummary : String)
deriving Repr, DecidableEq

/-- `SQLAgentResponse`. -/
structure SQLAgentResponse where
  sql : String
  rows : List (List (String × String))
  columns : List String
  limitEnforced : Bool
  attempts : Nat
  repaired : Bool
  errors : List String
  context : List String
deriving Repr, DecidableEq

/-- Outcome of `_handle_sql`: a response, or an `AgentExecutionError` carrying
the message, the attempt count and the error history. -/
inductive SqlRunResult
  | success (resp : SQLAgentResponse)
  | failure (message : String) (attempts : Nat) (errors : List String)
deriving Repr, DecidableEq

/-- The generation step of one attempt: `self._llm.generate(sql_prompt)`
followed by `ensure_required_literals` when the user prompt contained literal
tokens.  `llm attempt` models the generator collaborator at the given attempt
(errors already summarized, since `summarize_exception` is the identity on
`LLMError`); a literal violation is summarized with the `Guardrail violation:`
prefix exactly as `summarize_exception` does. -/
def genStep (llm : Nat → Except String String) (requiredLiterals : List String)
    (attempt : Nat) : Except String String :=
  match llm attempt with
  | .error e => .error e
  | .ok sql =>
    if requiredLiterals.isEmpty then .ok sql
    else
      match ensureRequiredLiterals sql requiredLiterals with
      | .ok () => .ok sql
      | .error e => .error ("Guardrail violation: " ++ e)

/-- The execution step of one attempt: `execute_query(sql)` (a collaborator;
its errors arrive already summarized) followed by `validate_result`, whose
empty-result `ValidationError` message is the source text. -/
def execAndValidate (executeQuery : String → Except String ExecResult) (sql : String) :
    Except String ExecResult :=
  match executeQuery sql with
  | .error e => .error e
  | .ok r =>
    if r.rows.isEmpty then
      .error "Query returned no rows; relax filters or adjust the time window."
    else .ok r

/-- The prompt chosen at the start of a loop iteration:
`if attempt == 1 or last_sql is None or not error_messages` the plain prompt,
otherwise the repair prompt from `last_sql` and `error_messages[-1]`. -/
def promptForAttempt (attempt : Nat) (lastSql : Option String) (errors : List String) :
    SqlPrompt :=
  if attempt == 1 || lastSql.isNone || errors.isEmpty then .plain
  else .repair (lastSql.getD "") (errors.getLastD "")

/-- The retry loop of `_handle_sql`, lines 223-310 of `app/agent/service.py`.
`fuel` counts the iterations left in `for attempt in range(1, max_retries+1)`;
the invocation below starts it at `maxRetries` with `attempt = 1`.  The second
component records, in order, the prompt sent to the generator on each attempt
actually made. -/
def handleSqlGo (llm : Nat → Except String String)
    (executeQuery : String → Except String ExecResult)
    (requiredLiterals : List String) (context : List String) (maxRetries : Nat) :
    Nat → Nat → List String → Option String → SqlRunResult × List SqlPrompt
  | 0, _, errors, _ =>
    (.failure "Agent failed after SQL retries." maxRetries errors, [])
  | fuel + 1, attempt, errors, lastSql =>
    let prompt := promptForAttempt attempt lastSql errors
    match genStep llm requiredLiterals attempt with
    | .error msg =>
      let errors1 := errors ++ [msg]
      if attempt == maxRetries then
        (.failure msg attempt errors1, [prompt])
      else
        let rest := handleSqlGo llm executeQuery requiredLiterals context maxRetries
          fuel (attempt + 1) errors1 none
        (rest.1, prompt :: rest.2)
    | .ok sql =>
      match execAndValidate executeQuery sql with
      | .ok r =>
        (.success
          { sql := r.sql, rows := r.rows, columns := r.columns,
            limitEnforced := r.limitEnforced, attempts := attempt,
            repaired := decide (1 < attempt), errors := errors,
            context := context }, [prompt])
      | .error msg =>
        let errors1 := errors ++ [msg]
        if attempt == maxRetries then
          (.failure msg attempt errors1, [prompt])
        else
          let rest := handleSqlGo llm executeQuery requiredLiterals context maxRetries
            fuel (attempt + 1) errors1 (some sql)
          (rest.1, prompt :: rest.2)

/-- `_handle_sql` after retrieval: run the retry loop from attempt 1 with an
empty error history and no previous SQL. -/
def handleSql (llm : Nat → Except String String)
    (executeQuery : String → Except String ExecResult)
    (requiredLiterals : List String) (context : List String) (maxRetries : Nat) :
    SqlRunResult × List SqlPrompt :=
  handleSqlGo llm executeQuery requiredLiterals context maxRetries maxRetries 1 [] none

/-! ## Conflict-Resolution Memory — `app/agent/repair_knowledge.py`

The store maps a table name to its recorded strategy entry; only the
`strategy` field of each entry is relevant to the controller, so entries are
modelled by their strategy string. -/

/-- The in-memory state of `RepairKnowledge._data`, keyed by table name. -/
abbrev RepairKnowledgeState := List (String × String)

/-- `RepairKnowledge.get_strategy(table)`. -/
def getStrategy (k : RepairKnowledgeState) (table : String) : Option String :=
  k.lookup table

/-- `RepairKnowledge.record_strategy(table, strategy, error)`: overwrite the
entry for `table` (the `last_error` / `updated_at` bookkeeping carries no
controller-visible information and is not modelled). -/
def recordStrategy (k : RepairKnowledgeState) (table strategy : String) :
    RepairKnowledgeState :=
  (table, strategy) :: k.filter (fun p => p.1 ≠ table)

/-- `RepairKnowledge.clear_strategy(table)`. -/
def clearStrategy (k : RepairKnowledgeState) (table : String) : RepairKnowledgeState :=
  k.filter (fun p => p.1 ≠ table)

/-! ## Bulk-load path, per-table DB load — `app/agent/service.py` lines 487-615

The load executor `load_table_from_csv` is a collaborator: it returns a row
count or raises a `DBLoadError` whose message is inspected for the
duplicate-key substrings.  `summarize_exception` is the identity on
`DBLoadError` (a plain `RuntimeError`), so summaries equal the raw message. -/

/-- Outcome of one `load_table_from_csv` call. -/
inductive LoadOutcome
  | ok (rows : Nat)
  | err (message : String)
deriving Repr, DecidableEq

/-- The duplicate-key test applied to a `DBLoadError` message (all three
source substrings are checked; the third subsumes the first two). -/
def isDuplicateError (message : String) : Bool :=
  let lowered := String.mk (lowerChars message.toList)
  containsLowered "duplicate key value violates unique constraint" lowered
    || containsLowered "unique constraint failed" lowered
    || containsLowered "unique constraint" lowered

/-- `load_mode = stored_strategy or ("upsert" if prefer_upsert else "insert")`
(Python `or` treats the empty string as absent). -/
def resolveLoadMode (k : RepairKnowledgeState) (preferUpsert : Bool) (table : String) :
    String :=
  match getStrategy k table with
  | some s => if s = "" then (if preferUpsert then "upsert" else "insert") else s
  | none => if preferUpsert then "upsert" else "insert"

/-- `if info_msg not in error_history: error_history.append(info_msg)`. -/
def appendIfNew (history : List String) (msg : String) : List String :=
  if history.contains msg then history else history ++ [msg]

/-- `skip_tables.add(table)` (the skip set is modelled as a duplicate-free list). -/
def insertSkip (skips : List String) (table : String) : List String :=
  if skips.contains table then skips else skips ++ [table]

/-- `skip_tables.discard(table)`. -/
def eraseSkip (skips : List String) (table : String) : List String :=
  skips.filter (fun t => t ≠ table)

/-- `db_rows[table] = value`. -/
def setDbRows (rows : List (String × Option Nat)) (table : String) (v : Option Nat) :
    List (String × Option Nat) :=
  (table, v) :: rows.filter (fun p => p.1 ≠ table)

/-- The mutable state threaded through the per-table load loop. -/
structure EtlLoadState where
  knowledge : RepairKnowledgeState
  skipTables : List String
  errorHistory : List String
  dbRows : List (String × Option Nat)
deriving Repr, DecidableEq

/-- Result of processing one table of the batch: the updated state, the load
modes of the `load_table_from_csv` calls actually made (in order), the
per-attempt fatal `load_failure_summary` if one was set, and whether the
loop `break`s (aborting the remaining tables of this attempt). -/
structure TableLoadStep where
  state : EtlLoadState
  attemptedModes : List String
  loadFailure : Option String
  broke : Bool
deriving Repr, DecidableEq

/-- One iteration of `for table in tables` in `_handle_etl`
(`app/agent/service.py` lines 494-606), transcribed clause by clause:
skip-flag release on upsert resolution, the skip short-circuit, the load
call, the duplicate-key automatic upsert retry with strategy recording, the
strategy clear and `break` when the upsert retry itself fails, the defensive
strategy clear on a duplicate error in upsert mode, and the skip-flag plus
fatal-error bookkeeping for unresolved failures.  `hasSkipKey` models
`skip_flag_key` being non-None (a cache client is configured); `loadExec`
models `load_table_from_csv` for this table's CSV. -/
def loadOneTable (hasSkipKey : Bool) (loadExec : String → String → LoadOutcome)
    (preferUpsert : Bool) (attempt : Nat) (st : EtlLoadState) (table : String) :
    TableLoadStep :=
  let loadMode := resolveLoadMode st.knowledge preferUpsert table
  let skip1 :=
    if st.skipTables.contains table && loadMode == "upsert" then
      eraseSkip st.skipTables table
    else st.skipTables
  if skip1.contains table then
    { state :=
        { st with
          skipTables := skip1,
          errorHistory := appendIfNew st.errorHistory
            ("DB load skipped for " ++ table ++ " (duplicate primary key detected earlier)."),
          dbRows := setDbRows st.dbRows table none },
      attemptedModes := [], loadFailure := none, broke := false }
  else
    match loadExec table loadMode with
    | .ok n =>
      let st1 := { st with skipTables := skip1, dbRows := setDbRows st.dbRows table (some n) }
      let st2 :=
        if loadMode == "upsert" then
          { st1 with
            knowledge := recordStrategy st1.knowledge table "upsert",
            skipTables :=
              if hasSkipKey && st1.skipTables.contains table then
                eraseSkip st1.skipTables table
              else st1.skipTables }
        else st1
      { state := st2, attemptedModes := [loadMode], loadFailure := none, broke := false }
    | .err msg =>
      let dup := isDuplicateError msg
      if dup && loadMode == "insert" then
        match loadExec table "upsert" with
        | .ok n =>
          let st1 :=
            { st with
              skipTables := skip1,
              dbRows := setDbRows st.dbRows table (some n),
              errorHistory := appendIfNew st.errorHistory
                ("Duplicate key detected for " ++ table
                  ++ "; retried with UPSERT (ON CONFLICT DO NOTHING).") }
          let st2 :=
            { st1 with
              knowledge := recordStrategy st1.knowledge table "upsert",
              skipTables :=
                if hasSkipKey && st1.skipTables.contains table then
                  eraseSkip st1.skipTables table
                else st1.skipTables }
          { state := st2, attemptedModes := [loadMode, "upsert"],
            loadFailure := none, broke := false }
        | .err msg2 =>
          { state :=
              { st with
                skipTables := skip1,
                errorHistory := st.errorHistory
                  ++ ["Attempt " ++ toString attempt
                      ++ " DB load failed after UPSERT retry: " ++ msg2],
                knowledge := clearStrategy st.knowledge table },
            attemptedModes := [loadMode, "upsert"],
            loadFailure := some msg2, broke := true }
      else
        { state :=
            { st with
              knowledge :=
                if dup && loadMode == "upsert" then clearStrategy st.knowledge table
                else st.knowledge,
              skipTables := insertSkip skip1 table,
              errorHistory := st.errorHistory
                ++ ["Attempt " ++ toString attempt ++ " DB load failed: " ++ msg] },
          attemptedModes := [loadMode], loadFailure := some msg, broke := true }

/-! ## ETL cache payload round trip — `app/agent/service.py` lines 315-380, 810-856 -/

/-- `Intent` — `app/agent/planner.py`. -/
inductive Intent
  | SQL
  | ETL
  | CHART
deriving Repr, DecidableEq

/-- `intent.name`. -/
def intentName : Intent → String
  | .SQL => "SQL"
  | .ETL => "ETL"
  | .CHART => "CHART"

/-- `Intent[intent_name]` with the `KeyError`/`TypeError` fallback to
`Intent.ETL` used by `_cached_response_to_etl_agent_response`. -/
def intentOfName (s : String) : Intent :=
  if s = "SQL" then .SQL
  else if s = "ETL" then .ETL
  else if s = "CHART" then .CHART
  else .ETL

/-- `ETLTableSummary`. -/
structure ETLTableSummary where
  table : String
  rowCount : Nat
  localPath : String
  s3Uri : Option String
  loadedRows : Option Nat
deriving Repr, DecidableEq

/-- `ETLAgentResponse`. -/
structure ETLAgentResponse where
  results : List ETLTableSummary
  intent : Intent
  attempts : Nat
  repaired : Bool
  errors : List String
  context : List String
deriving Repr, DecidableEq

/-- One entry of the `results` list of the cached payload dict. -/
structure ETLSummaryPayload where
  table : String
  rowCount : Nat
  localPath : String
  s3Uri : Option String
  loadedRows : Option Nat
deriving Repr, DecidableEq

/-- The JSON payload stored under the ETL cache key: exactly the keys written
by `_etl_agent_response_to_cache_payload` (`intent`, `attempts`, `errors`,
`context`, `results`) — the `repaired` flag is not among them. -/
structure ETLCachePayload where
  intentNameField : String
  attempts : Nat
  errors : List String
  context : List String
  results : List ETLSummaryPayload
deriving Repr, DecidableEq

def summaryToPayload (s : ETLTableSummary) : ETLSummaryPayload :=
  { table := s.table, rowCount := s.rowCount, localPath := s.localPath,
    s3Uri := s.s3Uri, loadedRows := s.loadedRows }

def payloadToSummary (p : ETLSummaryPayload) : ETLTableSummary :=
  { table := p.table, rowCount := p.rowCount, localPath := p.localPath,
    s3Uri := p.s3Uri, loadedRows := p.loadedRows }

/-- `_etl_agent_response_to_cache_payload(response)`. -/
def etlAgentResponseToCachePayload (r : ETLAgentResponse) : ETLCachePayload :=
  { intentNameField := intentName r.intent,
    attempts := r.attempts,
    errors := r.errors,
    context := r.context,
    results := r.results.map summaryToPayload }

/-- `_cached_response_to_etl_agent_response(payload)` — note the source
constructs the replayed response with `repaired=False`. -/
def cachedResponseToEtlAgentResponse (p : ETLCachePayload) : ETLAgentResponse :=
  { results := p.results.map payloadToSummary,
    intent := intentOfName p.intentNameField,
    attempts := p.attempts,
    repaired := false,
    errors := p.errors,
    context := p.context }

/-- The three cache reads `_handle_etl` performs under its cache key before
any generator call: the final payload, the persisted error history, and the
persisted skip flags. -/
structure EtlCacheView where
  finalPayload : Option ETLCachePayload
  cachedErrors : Option (List String)
  cachedSkips : Option (List String)
deriving Repr, DecidableEq

/-- Outcome of the cache stage of `_handle_etl` (lines 361-380): an immediate
replay on a hit, or the restored error history and skip flags with which the
attempt loop proceeds. -/
inductive EtlEntryOutcome
  | cacheHit (resp : ETLAgentResponse)
  | proceed (errorHistory : List String) (skipTables : List String)
deriving Repr, DecidableEq

/-- The cache stage of `_handle_etl` with a configured cache client; the
second component counts generator calls made during this stage (the source
returns before `self._llm.generate` is ever reached on a hit). -/
def handleEtlCacheStage (cache : EtlCacheView) : EtlEntryOutcome × Nat :=
  match cache.finalPayload with
  | some payload => (.cacheHit (cachedResponseToEtlAgentResponse payload), 0)
  | none =>
    (.proceed (cache.cachedErrors.getD []) (cache.cachedSkips.getD []), 0)

/-! ## Upsert load executors — `app/etl/db_loader.py` lines 134-174

The destination table is modelled by the list of primary-key values already
present; each input record is represented by its primary-key value.  `INSERT
... ON CONFLICT DO NOTHING` / `INSERT OR IGNORE` insert exactly the records
whose key is not yet present.  Chunking does not change the final table
contents and is dropped. -/

/-- Effect of inserting one record under ignore-on-conflict semantics. -/
def insertOrIgnore (db : List String) (key : String) : List String :=
  if db.contains key then db else db ++ [key]

/-- `_execute_sqlite_upsert`: returns `len(records)` regardless of how many
rows the conflict clause ignored (the source comments that `rowcount` is not
relied upon), together with the resulting table contents. -/
def executeSqliteUpsert (db : List String) (records : List String) : Nat × List String :=
  if records.isEmpty then (0, db)
  else (records.length, records.foldl insertOrIgnore db)

/-- `_execute_postgres_upsert`: raises when the reflected table has no primary
key, otherwise behaves like the SQLite variant and returns `len(records)`. -/
def executePostgresUpsert (tableName : String) (primaryKeys : List String)
    (db : List String) (records : List String) : Except String (Nat × List String) :=
  if primaryKeys.isEmpty then
    .error ("Table " ++ tableName ++ " has no primary key; cannot perform UPSERT.")
  else if records.isEmpty then .ok (0, db)
  else .ok (records.length, records.foldl insertOrIgnore db)

/-- The number of rows an upsert actually wrote: the growth of the table. -/
def rowsActuallyWritten (db dbAfter : List String) : Nat :=
  dbAfter.length - db.length

/-! ## Concrete collaborator stubs used in the statements below -/

/-- A generator stub: attempt 1 returns SQL that drops the requested date
literal `2024-01-01`; attempt 2 returns SQL containing it. -/
def literalDroppingLlm : Nat → Except String String := fun k =>
  if k == 1 then .ok "SELECT id FROM patients"
  else .ok "SELECT id FROM patients WHERE birthdate = \x272024-01-01\x27"

/-- An execution stub that accepts any SQL and returns one row. -/
def alwaysOkExec : String → Except String ExecResult := fun s =>
  .ok { sql := s, rows := [[("id", "p1")]], columns := ["id"], limitEnforced := true }

/-- A generator stub: invalid SQL on attempt 1, valid SQL on attempt 2. -/
def invalidThenValidLlm : Nat → Except String String := fun k =>
  if k == 1 then .ok "SELECT zap" else .ok "SELECT id FROM patients"

/-- An execution stub that fails on the attempt-1 SQL of
`invalidThenValidLlm` and succeeds otherwise. -/
def failZapExec : String → Except String ExecResult := fun s =>
  if s == "SELECT zap" then .error "Database error: boom"
  else .ok { sql := s, rows := [[("id", "p1")]], columns := ["id"], limitEnforced := true }

/-- A generator stub that always fails at generation. -/
def alwaysFailLlm : Nat → Except String String := fun _ => .error "gen failed"

/-- A load-executor stub raising a duplicate-key error on insert mode and a
non-duplicate error on the automatic upsert retry. -/
def dupThenDiskFullExec : String → String → LoadOutcome := fun _ m =>
  if m == "insert" then .err "duplicate key value violates unique constraint pk" else .err "disk full"

/-- A load-executor stub raising a duplicate-key error on insert mode and
succeeding on upsert mode (the conflict self-healing scenario of the test
suite). -/
def dupThenOkExec : String → String → LoadOutcome := fun _ m =>
  if m == "insert" then .err "duplicate key value violates unique constraint" else .ok 1

/-- A first-invocation ETL response that required a repair (attempt 2,
`repaired = True`), as cached by a successful second attempt. -/
def repairedFirstEtlResponse : ETLAgentResponse :=
  { results := [⟨"patients", 5, "/tmp/patients.csv", none, some 5⟩],
    intent := .ETL, attempts := 2, repaired := true,
    errors := ["Attempt 1 pipeline failed: boom"], context := ["doc"] }

/-! ## Helper lemmas -/

theorem intentOfName_intentName (i : Intent) : intentOfName (intentName i) = i := by
  cases i <;> rfl

theorem payloadToSummary_summaryToPayload (s : ETLTableSummary) :
    payloadToSummary (summaryToPayload s) = s := rfl

theorem eraseSkip_contains_self (skips : List String) (table : String) :
    (eraseSkip skips table).contains table = false := by
  simp [eraseSkip]

theorem mem_eraseSkip_self (skips : List String) (table : String) :
    table ∉ eraseSkip skips table := by
  simp [eraseSkip]

theorem getStrategy_clearStrategy (k : RepairKnowledgeState) (table : String) :
    getStrategy (clearStrategy k table) table = none := by
  unfold getStrategy clearStrategy
  induction k with
  | nil => rfl
  | cons p ps ih =>
    simp only [List.filter]
    by_cases h : p.1 = table
    · rw [show (decide (p.1 ≠ table)) = false by simp [h]]
      exact ih
    · rw [show (decide (p.1 ≠ table)) = true by simp [h]]
      simp only [List.lookup]
      rw [show (table == p.1) = false by simpa [beq_eq_false_iff_ne] using fun he => h he.symm]
      exact ih

/-! ## Claim theorems -/

/-- C1 counterexample: a first invocation that succeeded on attempt 2 is
cached with `repaired = true`, yet the replay returned on the cache hit
carries `repaired = false`, so the second invocation's Load Result is not
identical to the first one. -/
theorem etl_cache_replay_not_identical :
    (handleEtlCacheStage
        ⟨some (etlAgentResponseToCachePayload repairedFirstEtlResponse), none, none⟩).1
      = .cacheHit { repairedFirstEtlResponse with repaired := false }
    ∧ ({ repairedFirstEtlResponse with repaired := false } : ETLAgentResponse)
        ≠ repairedFirstEtlResponse :=
  ⟨by decide, by decide⟩

/-- C1 (amended): for every bulk-load request whose cache key has a stored
final result, the cache-hit replay makes zero generator calls and returns the
first invocation's Load Result with identical table summaries, attempts,
errors and context, but with the repaired flag forced to `false` (the flag is
not part of the cached payload); the replay is identical to the first result
exactly when the first invocation did not repair. -/
theorem etl_cache_hit_replay
    (r : ETLAgentResponse) (cachedErrors cachedSkips : Option (List String)) :
    handleEtlCacheStage ⟨some (etlAgentResponseToCachePayload r), cachedErrors, cachedSkips⟩
      = (.cacheHit { r with repaired := false }, 0) := by
  cases r with
  | mk results intent attempts repaired errors context =>
    simp [handleEtlCacheStage, etlAgentResponseToCachePayload,
      cachedResponseToEtlAgentResponse, List.map_map, intentOfName_intentName,
      show payloadToSummary ∘ summaryToPayload = id from funext fun s => rfl]

/-- C2: whenever the conflict-resolution memory records strategy `upsert` for
a table, the per-table load resolves its mode to `upsert` and the only
executor call made for that table is in `upsert` mode — no insert-mode
attempt occurs (this holds until `clear_strategy` removes the entry, since
mode resolution reads the stored strategy first). -/
theorem upsert_strategy_resolves_upsert
    (hasSkipKey : Bool) (loadExec : String → String → LoadOutcome) (preferUpsert : Bool)
    (attempt : Nat) (st : EtlLoadState) (table : String)
    (h : getStrategy st.knowledge table = some "upsert") :
    resolveLoadMode st.knowledge preferUpsert table = "upsert"
    ∧ (loadOneTable hasSkipKey loadExec preferUpsert attempt st table).attemptedModes
        = ["upsert"]
    ∧ "insert" ∉ (loadOneTable hasSkipKey loadExec preferUpsert attempt st table).attemptedModes := by
  have hmode : resolveLoadMode st.knowledge preferUpsert table = "upsert" := by
    simp [resolveLoadMode, h]
  have hmodes :
      (loadOneTable hasSkipKey loadExec preferUpsert attempt st table).attemptedModes
        = ["upsert"] := by
    by_cases hm : table ∈ st.skipTables
    · cases hl : loadExec table "upsert" with
      | ok n => simp [loadOneTable, hmode, hm, hl, mem_eraseSkip_self]
      | err msg => simp [loadOneTable, hmode, hm, hl, mem_eraseSkip_self]
    · cases hl : loadExec table "upsert" with
      | ok n => simp [loadOneTable, hmode, hm, hl]
      | err msg => simp [loadOneTable, hmode, hm, hl]
  exact ⟨hmode, hmodes, by rw [hmodes]; decide⟩

/-- C2 witness: a state that has `upsert` recorded for `patients` resolves to
`upsert` and makes exactly one upsert-mode executor call. -/
theorem upsert_strategy_resolves_upsert_witness :
    resolveLoadMode [("patients", "upsert")] false "patients" = "upsert"
    ∧ (loadOneTable true dupThenOkExec false 1
        ⟨[("patients", "upsert")], [], [], []⟩ "patients").attemptedModes = ["upsert"]
    ∧ "insert" ∉ (loadOneTable true dupThenOkExec false 1
        ⟨[("patients", "upsert")], [], [], []⟩ "patients").attemptedModes :=
  upsert_strategy_resolves_upsert true dupThenOkExec false 1
    ⟨[("patients", "upsert")], [], [], []⟩ "patients" (by decide)

/-- C3 counterexample: with no recorded strategy and an empty skip set, an
insert that hits a duplicate-key error followed by a failing upsert retry
leaves the skip-flag set empty — the table is NOT added to it (the source
breaks out of the table loop before `skip_tables.add` is reached), even
though the strategy is cleared and the fatal load error is recorded. -/
theorem upsert_retry_failure_skip_flag_not_set :
    (loadOneTable true dupThenDiskFullExec false 1 ⟨[], [], [], []⟩ "patients").state.skipTables
        = []
    ∧ (loadOneTable true dupThenDiskFullExec false 1 ⟨[], [], [], []⟩ "patients").state.knowledge
        = []
    ∧ (loadOneTable true dupThenDiskFullExec false 1 ⟨[], [], [], []⟩ "patients").loadFailure
        = some "disk full"
    ∧ (loadOneTable true dupThenDiskFullExec false 1 ⟨[], [], [], []⟩ "patients").state.errorHistory
        = ["Attempt 1 DB load failed after UPSERT retry: disk full"] :=
  ⟨by decide, by decide, by decide, by decide⟩

/-- C3 (amended): when a duplicate-key conflict on an insert-mode load
triggers the automatic upsert retry and the retry itself fails, the
controller clears the recorded strategy for the table, records a fatal load
error for the current attempt and aborts the remaining tables of the batch;
the table is NOT added to the skip-flag set on this path (the loop breaks
before the skip-flag insertion, which only runs for failures outside the
upsert-retry branch). -/
theorem upsert_retry_failure_behaviour
    (hasSkipKey : Bool) (loadExec : String → String → LoadOutcome) (preferUpsert : Bool)
    (attempt : Nat) (st : EtlLoadState) (table msg msg2 : String)
    (hmode : resolveLoadMode st.knowledge preferUpsert table = "insert")
    (hskip : table ∉ st.skipTables)
    (hins : loadExec table "insert" = .err msg)
    (hdup : isDuplicateError msg = true)
    (hups : loadExec table "upsert" = .err msg2) :
    getStrategy (loadOneTable hasSkipKey loadExec preferUpsert attempt st table).state.knowledge
        table = none
    ∧ (loadOneTable hasSkipKey loadExec preferUpsert attempt st table).loadFailure = some msg2
    ∧ (loadOneTable hasSkipKey loadExec preferUpsert attempt st table).state.errorHistory
        = st.errorHistory
          ++ ["Attempt " ++ toString attempt ++ " DB load failed after UPSERT retry: " ++ msg2]
    ∧ (loadOneTable hasSkipKey loadExec preferUpsert attempt st table).broke = true
    ∧ (loadOneTable hasSkipKey loadExec preferUpsert attempt st table).state.skipTables
        = st.skipTables := by
  have hstep :
      loadOneTable hasSkipKey loadExec preferUpsert attempt st table
        = { state :=
              { st with
                skipTables := st.skipTables,
                errorHistory := st.errorHistory
                  ++ ["Attempt " ++ toString attempt
                      ++ " DB load failed after UPSERT retry: " ++ msg2],
                knowledge := clearStrategy st.knowledge table },
            attemptedModes := ["insert", "upsert"],
            loadFailure := some msg2, broke := true } := by
    simp [loadOneTable, hmode, hskip, hins, hdup, hups]
  rw [hstep]
  exact ⟨getStrategy_clearStrategy st.knowledge table, rfl, rfl, rfl, rfl⟩

/-- C3 witness: the amended behaviour at a concrete state and executor. -/
theorem upsert_retry_failure_behaviour_witness :
    getStrategy (loadOneTable true dupThenDiskFullExec false 2
        ⟨[("patients", "insert")], [], ["old"], []⟩ "patients").state.knowledge "patients" = none
    ∧ (loadOneTable true dupThenDiskFullExec false 2
        ⟨[("patients", "insert")], [], ["old"], []⟩ "patients").loadFailure = some "disk full"
    ∧ (loadOneTable true dupThenDiskFullExec false 2
        ⟨[("patients", "insert")], [], ["old"], []⟩ "patients").state.errorHistory
        = ["old"] ++ ["Attempt " ++ toString 2 ++ " DB load failed after UPSERT retry: " ++ "disk full"]
    ∧ (loadOneTable true dupThenDiskFullExec false 2
        ⟨[("patients", "insert")], [], ["old"], []⟩ "patients").broke = true
    ∧ (loadOneTable true dupThenDiskFullExec false 2
        ⟨[("patients", "insert")], [], ["old"], []⟩ "patients").state.skipTables = [] :=
  upsert_retry_failure_behaviour true dupThenDiskFullExec false 2
    ⟨[("patients", "insert")], [], ["old"], []⟩ "patients"
    "duplicate key value violates unique constraint pk" "disk full"
    (by decide) (by decide) (by decide) (by decide) (by decide)

theorem handleSqlGo_trace_head (llm : Nat → Except String String)
    (executeQuery : String → Except String ExecResult)
    (requiredLiterals context : List String) (maxRetries : Nat)
    (fuel attempt : Nat) (errors : List String) (lastSql : Option String) :
    ∃ tail,
      (handleSqlGo llm executeQuery requiredLiterals context maxRetries
          (fuel + 1) attempt errors lastSql).2
        = promptForAttempt attempt lastSql errors :: tail := by
  cases hg : genStep llm requiredLiterals attempt with
  | error msg =>
    by_cases hb : (attempt == maxRetries) = true
    · exact ⟨[], by simp [handleSqlGo, hg, hb]⟩
    · rw [Bool.not_eq_true] at hb
      exact ⟨(handleSqlGo llm executeQuery requiredLiterals context maxRetries fuel
          (attempt + 1) (errors ++ [msg]) none).2, by simp [handleSqlGo, hg, hb]⟩
  | ok sql =>
    cases he : execAndValidate executeQuery sql with
    | ok r => exact ⟨[], by simp [handleSqlGo, hg, he]⟩
    | error msg =>
      by_cases hb : (attempt == maxRetries) = true
      · exact ⟨[], by simp [handleSqlGo, hg, he, hb]⟩
      · rw [Bool.not_eq_true] at hb
        exact ⟨(handleSqlGo llm executeQuery requiredLiterals context maxRetries fuel
            (attempt + 1) (errors ++ [msg]) (some sql)).2, by simp [handleSqlGo, hg, he, hb]⟩

theorem getLastD_append_singleton (l : List String) (m d : String) :
    (l ++ [m]).getLastD d = m := by
  simp [List.getLastD_concat]

/-- C4 counterexample: with the date literal `2024-01-01` required, attempt 1
generates SQL that omits it — a generation-stage failure — and attempt 2 is
then issued with the PLAIN generation prompt, not a repair prompt, even
though attempt 2 has number k = 2 > 1. -/
theorem generation_failure_gets_plain_prompt :
    (handleSql literalDroppingLlm alwaysOkExec ["2024-01-01"] [] 2).2
        = [SqlPrompt.plain, SqlPrompt.plain]
    ∧ genStep literalDroppingLlm ["2024-01-01"] 1
        = .error "Guardrail violation: Generated SQL omitted required values: 2024-01-01" :=
  ⟨by decide, by decide⟩

/-- C4 (amended): on the query path, when attempt `k` generates SQL `s` that
then fails at guardrail validation, result validation or execution with
summary `m` and the budget is not exhausted, the prompt of attempt `k+1` is
the repair prompt carrying exactly `s` and `m`; when attempt `k` fails at the
generation stage instead (LLM failure or required-literal violation), the
previous SQL is discarded and attempt `k+1` uses the plain generation
prompt. -/
theorem repair_prompt_selection (llm : Nat → Except String String)
    (executeQuery : String → Except String ExecResult)
    (requiredLiterals context : List String) (maxRetries : Nat)
    (fuel attempt : Nat) (errors : List String) (lastSql : Option String) (s m : String) :
    (genStep llm requiredLiterals attempt = .ok s →
      execAndValidate executeQuery s = .error m →
      (attempt == maxRetries) = false → 1 ≤ attempt →
      ((handleSqlGo llm executeQuery requiredLiterals context maxRetries
          (fuel + 2) attempt errors lastSql).2).take 2
        = [promptForAttempt attempt lastSql errors, SqlPrompt.repair s m])
    ∧ (genStep llm requiredLiterals attempt = .error m →
      (attempt == maxRetries) = false →
      ((handleSqlGo llm executeQuery requiredLiterals context maxRetries
          (fuel + 2) attempt errors lastSql).2).take 2
        = [promptForAttempt attempt lastSql errors, SqlPrompt.plain]) := by
  constructor
  · intro hgen hexec hb hone
    have hnext : promptForAttempt (attempt + 1) (some s) (errors ++ [m])
        = SqlPrompt.repair s m := by
      have h1 : (attempt + 1 == 1) = false := by simp; omega
      simp [promptForAttempt, h1, getLastD_append_singleton]
    simp only [handleSqlGo, hgen, hexec, hb]
    simp only [Bool.false_eq_true, if_false]
    cases hg2 : genStep llm requiredLiterals (attempt + 1) with
    | error msg2 =>
      by_cases hb2 : (attempt + 1 == maxRetries) = true
      · simp [hg2, hb2, hnext]
      · rw [Bool.not_eq_true] at hb2
        simp [hg2, hb2, hnext]
    | ok sql2 =>
      cases he2 : execAndValidate executeQuery sql2 with
      | ok r => simp [hg2, he2, hnext]
      | error msg2 =>
        by_cases hb2 : (attempt + 1 == maxRetries) = true
        · simp [hg2, hb2, he2, hnext]
        · rw [Bool.not_eq_true] at hb2
          simp [hg2, hb2, he2, hnext]
  · intro hgen hb
    have hnext : promptForAttempt (attempt + 1) none (errors ++ [m]) = SqlPrompt.plain := by
      simp [promptForAttempt]
    simp only [handleSqlGo, hgen, hb]
    simp only [Bool.false_eq_true, if_false]
    cases hg2 : genStep llm requiredLiterals (attempt + 1) with
    | error msg2 =>
      by_cases hb2 : (attempt + 1 == maxRetries) = true
      · simp [hg2, hb2, hnext]
      · rw [Bool.not_eq_true] at hb2
        simp [hg2, hb2, hnext]
    | ok sql2 =>
      cases he2 : execAndValidate executeQuery sql2 with
      | ok r => simp [hg2, he2, hnext]
      | error msg2 =>
        by_cases hb2 : (attempt + 1 == maxRetries) = true
        · simp [hg2, hb2, he2, hnext]
        · rw [Bool.not_eq_true] at hb2
          simp [hg2, hb2, he2, hnext]

/-- C4 witness: attempt 1 generates `SELECT zap`, which fails execution with
`Database error: boom`; the attempt-2 prompt is the repair prompt carrying
that SQL and error. -/
theorem repair_prompt_selection_witness :
    ((handleSqlGo invalidThenValidLlm failZapExec [] [] 2 (0 + 2) 1 [] none).2).take 2
      = [promptForAttempt 1 none [], SqlPrompt.repair "SELECT zap" "Database error: boom"] :=
  (repair_prompt_selection invalidThenValidLlm failZapExec [] [] 2 0 1 [] none
      "SELECT zap" "Database error: boom").1
    (by decide) (by decide) (by decide) (by decide)

theorem handleSqlGo_accounting (llm : Nat → Except String String)
    (executeQuery : String → Except String ExecResult)
    (requiredLiterals context : List String) (maxRetries : Nat) :
    ∀ (fuel attempt : Nat) (errors : List String) (lastSql : Option String),
      attempt + fuel = maxRetries + 1 →
      (∀ resp ps,
        handleSqlGo llm executeQuery requiredLiterals context maxRetries
            fuel attempt errors lastSql = (.success resp, ps) →
          resp.attempts + 1 = attempt + ps.length
          ∧ resp.repaired = decide (1 < resp.attempts)
          ∧ resp.errors.length + 1 = errors.length + ps.length)
      ∧ (∀ msg a errs ps,
        handleSqlGo llm executeQuery requiredLiterals context maxRetries
            fuel attempt errors lastSql = (.failure msg a errs, ps) →
          a + 1 = attempt + ps.length ∧ errs.length = errors.length + ps.length) := by
  intro fuel
  induction fuel with
  | zero =>
    intro attempt errors lastSql hinv
    constructor
    · intro resp ps h
      simp [handleSqlGo] at h
    · intro msg a errs ps h
      simp only [handleSqlGo, Prod.mk.injEq, SqlRunResult.failure.injEq] at h
      obtain ⟨⟨hm, ha, he⟩, hp⟩ := h
      subst ha; subst he; subst hp
      simp
      omega
  | succ fuel ih =>
    intro attempt errors lastSql hinv
    have hinv1 : (attempt + 1) + fuel = maxRetries + 1 := by omega
    constructor
    · intro resp ps h
      simp only [handleSqlGo] at h
      cases hg : genStep llm requiredLiterals attempt with
      | error msg =>
        simp only [hg] at h
        by_cases hb : (attempt == maxRetries) = true
        · rw [if_pos hb] at h
          simp at h
        · rw [if_neg hb] at h
          simp only [Prod.mk.injEq] at h
          obtain ⟨h1, h2⟩ := h
          have := ((ih (attempt + 1) (errors ++ [msg]) none hinv1).1 resp
            (handleSqlGo llm executeQuery requiredLiterals context maxRetries fuel
              (attempt + 1) (errors ++ [msg]) none).2 (by
            rw [Prod.ext_iff]; exact ⟨h1, rfl⟩))
          obtain ⟨ha, hr, he⟩ := this
          subst h2
          simp only [List.length_cons, List.length_append, List.length_nil] at ha he ⊢
          exact ⟨by omega, hr, by omega⟩
      | ok sql =>
        simp only [hg] at h
        cases hx : execAndValidate executeQuery sql with
        | ok r =>
          simp only [hx] at h
          simp only [Prod.mk.injEq, SqlRunResult.success.injEq] at h
          obtain ⟨hresp, hps⟩ := h
          subst hresp; subst hps
          simp
        | error msg =>
          simp only [hx] at h
          by_cases hb : (attempt == maxRetries) = true
          · rw [if_pos hb] at h
            simp at h
          · rw [if_neg hb] at h
            simp only [Prod.mk.injEq] at h
            obtain ⟨h1, h2⟩ := h
            have := ((ih (attempt + 1) (errors ++ [msg]) (some sql) hinv1).1 resp
              (handleSqlGo llm executeQuery requiredLiterals context maxRetries fuel
                (attempt + 1) (errors ++ [msg]) (some sql)).2 (by
              rw [Prod.ext_iff]; exact ⟨h1, rfl⟩))
            obtain ⟨ha, hr, he⟩ := this
            subst h2
            simp only [List.length_cons, List.length_append, List.length_nil] at ha he ⊢
            exact ⟨by omega, hr, by omega⟩
    · intro msg a errs ps h
      simp only [handleSqlGo] at h
      cases hg : genStep llm requiredLiterals attempt with
      | error gmsg =>
        simp only [hg] at h
        by_cases hb : (attempt == maxRetries) = true
        · rw [if_pos hb] at h
          simp only [Prod.mk.injEq, SqlRunResult.failure.injEq] at h
          obtain ⟨⟨hm, ha, he⟩, hp⟩ := h
          subst ha; subst he; subst hp
          simp
        · rw [if_neg hb] at h
          simp only [Prod.mk.injEq] at h
          obtain ⟨h1, h2⟩ := h
          have := ((ih (attempt + 1) (errors ++ [gmsg]) none hinv1).2 msg a errs
            (handleSqlGo llm executeQuery requiredLiterals context maxRetries fuel
              (attempt + 1) (errors ++ [gmsg]) none).2 (by
            rw [Prod.ext_iff]; exact ⟨h1, rfl⟩))
          obtain ⟨ha, he⟩ := this
          subst h2
          simp only [List.length_cons, List.length_append, List.length_nil] at ha he ⊢
          exact ⟨by omega, by omega⟩
      | ok sql =>
        simp only [hg] at h
        cases hx : execAndValidate executeQuery sql with
        | ok r =>
          simp only [hx] at h
          simp at h
        | error emsg =>
          simp only [hx] at h
          by_cases hb : (attempt == maxRetries) = true
          · rw [if_pos hb] at h
            simp only [Prod.mk.injEq, SqlRunResult.failure.injEq] at h
            obtain ⟨⟨hm, ha, he⟩, hp⟩ := h
            subst ha; subst he; subst hp
            simp
          · rw [if_neg hb] at h
            simp only [Prod.mk.injEq] at h
            obtain ⟨h1, h2⟩ := h
            have := ((ih (attempt + 1) (errors ++ [emsg]) (some sql) hinv1).2 msg a errs
              (handleSqlGo llm executeQuery requiredLiterals context maxRetries fuel
                (attempt + 1) (errors ++ [emsg]) (some sql)).2 (by
              rw [Prod.ext_iff]; exact ⟨h1, rfl⟩))
            obtain ⟨ha, he⟩ := this
            subst h2
            simp only [List.length_cons, List.length_append, List.length_nil] at ha he ⊢
            exact ⟨by omega, by omega⟩

theorem handleSqlGo_all_gen_failures (llm : Nat → Except String String)
    (executeQuery : String → Except String ExecResult)
    (requiredLiterals context : List String) (maxRetries : Nat)
    (hgen : ∀ k, ∃ m, llm k = .error m) :
    ∀ (fuel attempt : Nat) (errors : List String) (lastSql : Option String),
      attempt + fuel = maxRetries + 1 →
      ∃ msg errs ps,
        handleSqlGo llm executeQuery requiredLiterals context maxRetries
            fuel attempt errors lastSql = (.failure msg maxRetries errs, ps)
        ∧ errs.length = errors.length + fuel ∧ ps.length = fuel := by
  intro fuel
  induction fuel with
  | zero =>
    intro attempt errors lastSql hinv
    exact ⟨"Agent failed after SQL retries.", errors, [], rfl, by simp, rfl⟩
  | succ fuel ih =>
    intro attempt errors lastSql hinv
    obtain ⟨m, hm⟩ := hgen attempt
    have hstep : genStep llm requiredLiterals attempt = .error m := by
      simp [genStep, hm]
    by_cases hb : (attempt == maxRetries) = true
    · have hattempt : attempt = maxRetries := by simpa using hb
      have hfuel : fuel = 0 := by omega
      subst hfuel
      refine ⟨m, errors ++ [m], [promptForAttempt attempt lastSql errors], ?_, by simp, rfl⟩
      rw [hattempt] at hstep
      simp [handleSqlGo, hstep, hb, hattempt]
    · obtain ⟨msg, errs, ps, hrec, herr, hps⟩ :=
        ih (attempt + 1) (errors ++ [m]) none (by omega)
      refine ⟨msg, errs, promptForAttempt attempt lastSql errors :: ps, ?_, ?_, by simp [hps]⟩
      · simp only [handleSqlGo, hstep]
        rw [if_neg hb]
        rw [Prod.ext_iff]
        exact ⟨by rw [hrec], by rw [hrec]⟩
      · simp only [herr, List.length_append, List.length_cons, List.length_nil]
        omega

/-- C5: on the query path, the `attempts` value carried by the success
response or by the terminal `AgentExecutionError` equals the number of
attempts actually made (the length of the prompt trace, whose entries are
1-based attempts); `repaired` is true iff more than one attempt was made; a
terminal error carries one error-history entry per failed attempt; and when
every attempt fails at generation with `max_retries = n`, the terminal error
carries `attempts = n` and an error history of length `n`. -/
theorem sql_attempts_accounting (llm : Nat → Except String String)
    (executeQuery : String → Except String ExecResult)
    (requiredLiterals context : List String) (n : Nat) :
    (∀ resp ps,
      handleSql llm executeQuery requiredLiterals context n = (.success resp, ps) →
        resp.attempts = ps.length
        ∧ (resp.repaired = true ↔ 1 < resp.attempts)
        ∧ resp.errors.length + 1 = ps.length)
    ∧ (∀ msg a errs ps,
      handleSql llm executeQuery requiredLiterals context n = (.failure msg a errs, ps) →
        a = ps.length ∧ errs.length = ps.length)
    ∧ ((∀ k, ∃ m, llm k = .error m) →
      ∃ msg errs ps,
        handleSql llm executeQuery requiredLiterals context n = (.failure msg n errs, ps)
        ∧ errs.length = n ∧ ps.length = n) := by
  refine ⟨?_, ?_, ?_⟩
  · intro resp ps h
    obtain ⟨ha, hr, he⟩ :=
      (handleSqlGo_accounting llm executeQuery requiredLiterals context n n 1 [] none
        (by omega)).1 resp ps h
    refine ⟨by omega, ?_, by simpa using he⟩
    rw [hr]
    simp
  · intro msg a errs ps h
    obtain ⟨ha, he⟩ :=
      (handleSqlGo_accounting llm executeQuery requiredLiterals context n n 1 [] none
        (by omega)).2 msg a errs ps h
    exact ⟨by omega, by simpa using he⟩
  · intro hgen
    obtain ⟨msg, errs, ps, hrec, herr, hps⟩ :=
      handleSqlGo_all_gen_failures llm executeQuery requiredLiterals context n hgen
        n 1 [] none (by omega)
    exact ⟨msg, errs, ps, hrec, by simpa using herr, hps⟩

/-- C5 witness: with a generator that always fails and `max_retries = 2`, the
terminal failure carries `attempts = 2` and two error-history entries, one
per attempt. -/
theorem sql_attempts_accounting_witness :
    (2 : Nat) = [SqlPrompt.plain, SqlPrompt.plain].length
    ∧ (["gen failed", "gen failed"] : List String).length
        = [SqlPrompt.plain, SqlPrompt.plain].length :=
  (sql_attempts_accounting alwaysFailLlm alwaysOkExec [] [] 2).2.1
    "gen failed" 2 ["gen failed", "gen failed"] [SqlPrompt.plain, SqlPrompt.plain] (by decide)

/-- C6 counterexample: a statement that begins with a leading SQL comment
followed by `SELECT` is rejected by the read-only shape check (the regex
anchors on optional whitespace only), while the same statement without the
comment passes — leading comments are NOT tolerated. -/
theorem leading_comment_rejected :
    ensureReadOnly "-- note\nSELECT 1" = .error "Only SELECT/CTE queries are permitted."
    ∧ ensureReadOnly "SELECT 1" = .ok () :=
  ⟨by decide, by decide⟩

/-- C6 (amended): guardrail validation accepts the read-only shape iff the
statement begins with `SELECT` or `WITH`, case-insensitively, after optional
leading whitespace only (leading comments are NOT tolerated); any other
string fails with the message `Only SELECT/CTE queries are permitted.`, and a
string containing a banned DML/DDL keyword, or a semicolon before the final
trailing semicolons, also fails — in particular
`SELECT 1; DROP TABLE patients`. -/
theorem read_only_guardrail (q : String) :
    ((ensureReadOnly q = .error "Only SELECT/CTE queries are permitted.")
        ↔ readOnlyMatches q = false)
    ∧ (containsProhibitedKeyword q = true → ensureReadOnly q ≠ .ok ())
    ∧ (hasInteriorSemicolon q = true → ensureReadOnly q ≠ .ok ())
    ∧ ensureReadOnly "DELETE FROM patients" = .error "Only SELECT/CTE queries are permitted."
    ∧ ensureReadOnly "SELECT 1; DROP TABLE patients" ≠ .ok () := by
  refine ⟨?_, ?_, ?_, by decide, by decide⟩
  · by_cases hz : readOnlyMatches q
    · by_cases hk : containsProhibitedKeyword q
      · simp [ensureReadOnly, hz, hk]
      · by_cases hs : hasInteriorSemicolon q
        · simp [ensureReadOnly, hz, hk, hs]
        · simp [ensureReadOnly, hz, hk, hs]
    · simp [ensureReadOnly, hz]
  · intro hk
    by_cases hz : readOnlyMatches q <;> simp [ensureReadOnly, hz, hk]
  · intro hs
    by_cases hz : readOnlyMatches q <;> by_cases hk : containsProhibitedKeyword q <;>
      simp [ensureReadOnly, hz, hk, hs]

/-- C6 witness: a statement containing the banned keyword `update` is
rejected. -/
theorem read_only_guardrail_witness :
    ensureReadOnly "SELECT 1 update" ≠ .ok () :=
  (read_only_guardrail "SELECT 1 update").2.1 (by decide)

/-- C7 counterexample: `birthdate` is not a catalog column of `encounters`,
yet the column reference check accepts it with no alias in scope — a column
valid only for a different table than the one it is used on is NOT rejected,
because the check consults the union of all tables' columns and never the
table the column is used on. -/
theorem wrong_table_column_accepted :
    (columnsOfTable "encounters").contains "birthdate" = false
    ∧ validateColumnReference false "birthdate" [] = .ok ()
    ∧ allowedTableNames.contains "encounters" = true :=
  ⟨by decide, by decide, by decide⟩

/-- C7 (amended): the column guardrail rejects a non-star column reference,
with an error listing the permitted column union, iff its normalized name is
non-empty, is not an alias of the enclosing SELECT projection list, and is
not in the union of all catalog tables' columns; the check is
table-insensitive, so a column that exists on no permitted table (e.g.
`favorite_color`) is rejected, while a column valid only for a different
table than the one it is used on is accepted. -/
theorem column_guardrail_union (name : String) (aliasNames : List String) :
    (validateColumnReference false name aliasNames
        = .error (unknownColumnMessage (normalizeName name))
      ↔ (name ≠ ""
          ∧ aliasNames.contains (normalizeName name) = false
          ∧ allowedColumnNames.contains (normalizeName name) = false))
    ∧ validateColumnReference true name aliasNames = .ok ()
    ∧ validateColumnReference false "favorite_color" []
        = .error (unknownColumnMessage "favorite_color") := by
  refine ⟨?_, by simp [validateColumnReference], by decide⟩
  by_cases hn : name = ""
  · simp [validateColumnReference, hn]
  · by_cases hal : normalizeName name ∈ aliasNames
    · simp [validateColumnReference, hn, hal]
    · by_cases hw : normalizeName name ∈ allowedColumnNames
      · simp [validateColumnReference, hn, hal, hw]
      · simp [validateColumnReference, hn, hal, hw]

/-- C7 witness: `favorite_color` with an unrelated alias in scope is rejected
with the message listing the permitted columns. -/
theorem column_guardrail_union_witness :
    validateColumnReference false "favorite_color" ["total_patients"]
      = .error (unknownColumnMessage (normalizeName "favorite_color")) :=
  (column_guardrail_union "favorite_color" ["total_patients"]).1.mpr
    ⟨by decide, by decide, by decide⟩

/-- C8: if the query has no word-bounded `limit` token, validation returns
the query (with trailing whitespace and semicolons dropped) with
`LIMIT <default>` appended and reports `enforced_limit = true`; if a `LIMIT`
token is present, the query text is returned unchanged with
`enforced_limit = false` — including on the spec's two concrete examples. -/
theorem limit_injection (query : String) (limit : Nat) :
    (containsLimitWord query = false →
      enforceLimit query limit
        = { query := String.mk (pyRstripSemis (pyRstripWs query.toList))
              ++ "\nLIMIT " ++ toString limit,
            enforced_limit := true })
    ∧ (containsLimitWord query = true →
      enforceLimit query limit = { query := query, enforced_limit := false })
    ∧ enforceLimit "SELECT id FROM patients" 50
        = { query := "SELECT id FROM patients\nLIMIT 50", enforced_limit := true }
    ∧ enforceLimit "SELECT id FROM patients LIMIT 5" 50
        = { query := "SELECT id FROM patients LIMIT 5", enforced_limit := false } := by
  refine ⟨?_, ?_, by decide, by decide⟩
  · intro h
    simp [enforceLimit, h]
  · intro h
    simp [enforceLimit, h]

/-- C8 witness: limit injection at a concrete query without a LIMIT clause. -/
theorem limit_injection_witness :
    enforceLimit "SELECT id FROM encounters;" 7
      = { query := String.mk (pyRstripSemis (pyRstripWs "SELECT id FROM encounters;".toList))
            ++ "\nLIMIT " ++ toString 7,
          enforced_limit := true } :=
  (limit_injection "SELECT id FROM encounters;" 7).1 (by decide)

/-- C9: when the SQL parser fails on a query, the known-table and
known-column checks return without raising, so validation reduces to the
read-only / banned-keyword / single-statement checks followed by limit
enforcement — an unparseable query that passes those reaches execution. -/
theorem unparseable_sql_skips_schema_checks
    (parse : String → Option ParsedSql) (query : String) (limit : Nat)
    (h : parse query = none) :
    ensureKnownTables parse query = .ok ()
    ∧ ensureKnownColumns parse query = .ok ()
    ∧ validateSql parse query limit
        = (ensureReadOnly query).map (fun _ => enforceLimit query limit) := by
  have ht : ensureKnownTables parse query = .ok () := by simp [ensureKnownTables, h]
  have hc : ensureKnownColumns parse query = .ok () := by simp [ensureKnownColumns, h]
  refine ⟨ht, hc, ?_⟩
  unfold validateSql
  cases hro : ensureReadOnly query with
  | ok u => cases u; rw [ht, hc]; simp [Except.map]
  | error e => simp [Except.map]

/-- C9 witness: with a parser that fails on everything, a malformed query
passes the table and column checks and validation reduces to the read-only
checks plus limit enforcement. -/
theorem unparseable_sql_skips_schema_checks_witness :
    ensureKnownTables (fun _ => none) "SELECT id FROM" = .ok ()
    ∧ ensureKnownColumns (fun _ => none) "SELECT id FROM" = .ok ()
    ∧ validateSql (fun _ => none) "SELECT id FROM" 10
        = (ensureReadOnly "SELECT id FROM").map
            (fun _ => enforceLimit "SELECT id FROM" 10) :=
  unparseable_sql_skips_schema_checks (fun _ => none) "SELECT id FROM" 10 rfl

/-- C10: for every non-empty record list, both upsert executors report a
loaded-row count equal to the number of input records regardless of how many
rows the conflict clause ignored; at a concrete input where every record
conflicts, the reported count is 1 while zero rows were actually written. -/
theorem upsert_reports_input_count :
    (∀ (db records : List String), records ≠ [] →
        (executeSqliteUpsert db records).1 = records.length)
    ∧ (∀ (tableName : String) (primaryKeys db records : List String),
        primaryKeys ≠ [] → records ≠ [] →
        executePostgresUpsert tableName primaryKeys db records
          = .ok (records.length, records.foldl insertOrIgnore db))
    ∧ (executeSqliteUpsert ["a"] ["a"]).1 = 1
    ∧ rowsActuallyWritten ["a"] (executeSqliteUpsert ["a"] ["a"]).2 = 0 := by
  refine ⟨?_, ?_, by decide, by decide⟩
  · intro db records h
    cases records with
    | nil => exact absurd rfl h
    | cons a l => simp [executeSqliteUpsert]
  · intro tableName primaryKeys db records hp hr
    cases primaryKeys with
    | nil => exact absurd rfl hp
    | cons p ps =>
      cases records with
      | nil => exact absurd rfl hr
      | cons a l => simp [executePostgresUpsert]

/-- C10 witness: concrete applications of both executors. -/
theorem upsert_reports_input_count_witness :
    (executeSqliteUpsert ["a", "b"] ["a", "c"]).1 = (["a", "c"] : List String).length
    ∧ executePostgresUpsert "patients" ["id"] [] ["x"]
        = .ok ((["x"] : List String).length, (["x"] : List String).foldl insertOrIgnore []) :=
  ⟨upsert_reports_input_count.1 ["a", "b"] ["a", "c"] (by decide),
   upsert_reports_input_count.2.1 "patients" ["id"] [] ["x"] (by decide) (by decide)⟩
